import Mathlib

/-!
Verification of the l5kit scene-visualisation pipeline
(`l5kit/visualization/visualiser/zarr_utils.py`) and of the closed-loop
reward (`l5kit/environment/reward.py`), as a shallow embedding in Lean 4.

Coordinates and yaws are real numbers (exact arithmetic in place of the
floats of the source); label probabilities and reward arithmetic use
rationals so that filters and comparisons stay decidable.
-/

namespace L5Kit

/-! ## Data model -/

/-- One scene record of a zarr dataset.  Only the count of scenes matters to
`zarr_to_visualizer_scene`; the id distinguishes scenes. -/
structure Scene where
  id : ℕ
  frame_index_interval : ℕ × ℕ
deriving Repr, DecidableEq

/-- One frame record: ego 2D translation, ego yaw (the source stores a 3x3
rotation and reduces it to a yaw via `rotation33_as_yaw`), and the half-open
index intervals tying the frame to rows of the agent and traffic-light
tables. -/
structure Frame where
  ego_translation : ℝ × ℝ
  ego_yaw : ℝ
  agent_index_interval : ℕ × ℕ
  traffic_light_faces_index_interval : ℕ × ℕ

/-- One agent record: stable track id, 2D centroid, yaw, extent
(length, width — the source uses `extent[:2]`), per-class label
probabilities. -/
structure Agent where
  track_id : ℕ
  centroid : ℝ × ℝ
  yaw : ℝ
  extent : ℝ × ℝ
  label_probabilities : List ℚ

/-- One traffic-light-face record: face id and its status string
("ACTIVE" when the face is asserted in this frame). -/
structure TLFace where
  face_id : String
  status : String
deriving Repr, DecidableEq

/-- The scene-scoped zarr dataset handed to `zarr_to_visualizer_scene`. -/
structure ChunkedDataset where
  scenes : List Scene
  frames : List Frame
  agents : List Agent
  tl_faces : List TLFace

/-- Signal colors known to the map service (`TLFacesColors`). -/
inductive TLFacesColors where
  | GREEN
  | RED
  | YELLOW
deriving Repr, DecidableEq

/-- The `.name` of a `TLFacesColors` member, as used for the `COLORS`
lookup. -/
def TLFacesColors.name : TLFacesColors → String
  | .GREEN => "GREEN"
  | .RED => "RED"
  | .YELLOW => "YELLOW"

/-- Boundary polylines of a lane as returned by `MapAPI.get_lane_coords`,
restricted to their xy components. -/
structure LaneCoords where
  xyz_left : List (ℝ × ℝ)
  xyz_right : List (ℝ × ℝ)

/-- The map query service (an external collaborator per the spec): spatial
queries within a radius of a point, lane/crosswalk geometry, traffic-control
associations and face colors.  `lanesNear p r` plays the role of
`indices_in_bounds(p, bounds_info["lanes"]["bounds"], r)` composed with the
id lookup. -/
structure MapAPI where
  lanesNear : ℝ × ℝ → ℝ → List String
  crosswalksNear : ℝ × ℝ → ℝ → List String
  get_lane_traffic_control_ids : String → List String
  get_color_for_face : String → TLFacesColors
  get_lane_coords : String → LaneCoords
  get_crosswalk_coords : String → List (ℝ × ℝ)

/-! ## Visualisation records (`visualiser/common.py`) -/

structure EgoVisualisation where
  xs : List ℝ
  ys : List ℝ
  color : String
  center_x : ℝ
  center_y : ℝ

structure AgentVisualisation where
  xs : List ℝ
  ys : List ℝ
  color : String
  track_id : ℕ
  type : String
  prob : ℚ

structure LaneVisualisation where
  xs : List ℝ
  ys : List ℝ
  color : String

structure CWVisualisation where
  xs : List ℝ
  ys : List ℝ
  color : String

structure TrajectoryVisualisation where
  xs : List ℝ
  ys : List ℝ
  color : String
  legend_label : String
  track_id : ℤ

structure FrameVisualisation where
  ego : EgoVisualisation
  agents : List AgentVisualisation
  lanes : List LaneVisualisation
  crosswalks : List CWVisualisation
  trajectories : List TrajectoryVisualisation

/-! ## Helpers of the repository that live outside `zarr_utils.py` -/

/-- Modelled from the spec: the perception label names
(`l5kit.data.labels.PERCEPTION_LABELS`, not under `src/`); the argmax over
an agent's label probabilities indexes into this list to give its displayed
class. -/
def PERCEPTION_LABELS : List String :=
  ["PERCEPTION_LABEL_NOT_SET", "PERCEPTION_LABEL_UNKNOWN", "PERCEPTION_LABEL_DONTCARE",
   "PERCEPTION_LABEL_CAR", "PERCEPTION_LABEL_VAN", "PERCEPTION_LABEL_TRAM",
   "PERCEPTION_LABEL_BUS", "PERCEPTION_LABEL_TRUCK", "PERCEPTION_LABEL_EMERGENCY_VEHICLE",
   "PERCEPTION_LABEL_OTHER_VEHICLE", "PERCEPTION_LABEL_BICYCLE", "PERCEPTION_LABEL_MOTORCYCLE",
   "PERCEPTION_LABEL_CYCLIST", "PERCEPTION_LABEL_MOTORCYCLIST", "PERCEPTION_LABEL_PEDESTRIAN",
   "PERCEPTION_LABEL_ANIMAL", "AVRESEARCH_LABEL_DONTCARE"]

/-- First index of the maximum of a rational list (`np.argmax`). -/
def argmax_index (l : List ℚ) : ℕ :=
  (List.range l.length).foldl (fun best i => if l.getD best 0 < l.getD i 0 then i else best) 0

/-- The top label probability of an agent (`label_probabilities` maximum). -/
def top_label_probability (a : Agent) : ℚ :=
  a.label_probabilities.foldl max 0

/-- Modelled from the spec: `filter_agents_by_labels` (`l5kit.data.filter`,
not under `src/`): discard every agent whose top label probability is below
the threshold. -/
def filter_agents_by_labels (agents : List Agent) (threshold : ℚ) : List Agent :=
  agents.filter (fun a => threshold ≤ top_label_probability a)

/-- Modelled from the spec: `filter_agents_by_frames` (`l5kit.data.filter`,
not under `src/`): partition the agent table per frame by slicing it with
each frame's half-open `agent_index_interval`. -/
def filter_agents_by_frames (frames : List Frame) (agents : List Agent) :
    List (List Agent) :=
  frames.map (fun f =>
    (agents.drop f.agent_index_interval.1).take
      (f.agent_index_interval.2 - f.agent_index_interval.1))

/-- Modelled from the spec: `filter_tl_faces_by_frames` (`l5kit.data.filter`,
not under `src/`): partition the traffic-light-face table per frame by the
frame's half-open traffic-light index interval. -/
def filter_tl_faces_by_frames (frames : List Frame) (tl_faces : List TLFace) :
    List (List TLFace) :=
  frames.map (fun f =>
    (tl_faces.drop f.traffic_light_faces_index_interval.1).take
      (f.traffic_light_faces_index_interval.2 - f.traffic_light_faces_index_interval.1))

/-- Modelled from the spec: `filter_tl_faces_by_status` (`l5kit.data.filter`,
not under `src/`): keep the faces whose frame-scoped status matches the
requested one. -/
def filter_tl_faces_by_status (tl_faces : List TLFace) (status : String) : List TLFace :=
  tl_faces.filter (fun f => f.status == status)

/-- Ego extent length used when synthesizing the ego as an agent. -/
noncomputable def EGO_EXTENT_LENGTH : ℝ := 4.87

/-- Ego extent width used when synthesizing the ego as an agent. -/
noncomputable def EGO_EXTENT_WIDTH : ℝ := 1.85

/-- Modelled from the spec: `get_ego_as_agent`
(`l5kit.rasterization.box_rasterizer`, not under `src/`): the ego vehicle
synthesized as a virtual agent — reserved track id, centroid and yaw taken
from the frame's ego pose, fixed ego extent, label fixed with
probability 1. -/
noncomputable def get_ego_as_agent (frame : Frame) : Agent :=
  { track_id := 0
    centroid := frame.ego_translation
    yaw := frame.ego_yaw
    extent := (EGO_EXTENT_LENGTH, EGO_EXTENT_WIDTH)
    label_probabilities := [1] }

/-- One lookahead step of `get_relative_poses`: the entity's position at
window step `i` together with its availability flag.  `track_id = none`
selects the ego (always available inside the scene); a concrete track id is
looked up among the frame's agents.  Past the end of the supplied window the
step is unavailable with a zero position. -/
def relative_pose_step (frames : List Frame) (track_id : Option ℕ)
    (agents_frames : List (List Agent)) (i : ℕ) : (ℝ × ℝ) × Bool :=
  match frames[i]? with
  | none => ((0, 0), false)
  | some f =>
    match track_id with
    | none => (f.ego_translation, true)
    | some tid =>
      match (agents_frames.getD i []).find? (fun a => a.track_id == tid) with
      | some a => (a.centroid, true)
      | none => ((0, 0), false)

/-- Modelled from the spec: `get_relative_poses` (`l5kit.sampling`, not
under `src/`), as called with an identity rotation and zero yaw offset:
positions over a window of `num` steps (world coordinates despite the
name — the documented quirk) together with a boolean availability mask of
length `num`.  A window shorter than `num` leaves the trailing steps
unavailable. -/
def get_relative_poses (num : ℕ) (frames : List Frame) (track_id : Option ℕ)
    (agents_frames : List (List Agent)) : List (ℝ × ℝ) × List Bool :=
  let steps := (List.range num).map (relative_pose_step frames track_id agents_frames)
  (steps.map (fun s => s.1), steps.map (fun s => s.2))

/-! ## Reward (`l5kit/environment/reward.py`) -/

/-- The configuration state of `CLEReward` set by `__init__`: clipping flag
and threshold, yaw flag and weight.  The metric set is an external
collaborator; its per-frame metric values enter `get_reward` as inputs. -/
structure CLEReward where
  enable_clip : Bool
  rew_clip_thresh : ℚ
  use_yaw : Bool
  yaw_weight : ℚ

/-- The method `CLEReward.get_reward`: the per-step reward dictionary.  The two metric
values `dist_error` and `yaw_error_metric` stand for
`scene_metrics['displacement_error_l2'][frame_index + 1]` and
`scene_metrics['yaw_error_closest_angle'][frame_index + 1]`, which the
external metric evaluator supplies.  The returned association list models
the Python dict (insertion-ordered keys). -/
def CLEReward.get_reward (self : CLEReward) (dist_error yaw_error_metric : ℚ) :
    List (String × ℚ) :=
  let yaw_error := self.yaw_weight * yaw_error_metric
  let dist_reward := if self.enable_clip then max (-self.rew_clip_thresh) (-dist_error)
    else -dist_error
  let yaw_reward := if self.use_yaw then -yaw_error else 0
  let total_reward := dist_reward + yaw_reward
  [("total", total_reward), ("distance", dist_reward), ("yaw", yaw_reward)]

/-! ## `zarr_utils.py` -/

/-- The fixed color table `COLORS` of `zarr_utils.py`: signal-color names
and perception labels mapped to display colors. -/
def COLORS : List (String × String) :=
  [("GREEN", "#33CC33"), ("RED", "#FF3300"), ("YELLOW", "#FFFF66"),
   ("PERCEPTION_LABEL_CAR", "#1F77B4"), ("PERCEPTION_LABEL_CYCLIST", "#CC33FF"),
   ("PERCEPTION_LABEL_PEDESTRIAN", "#66CCFF")]

/-- Lookup `COLORS[key]`: the Python subscript raises on a missing key; the
sentinel stands for that unreachable branch (every `TLFacesColors` name is a
key of `COLORS`). -/
def COLORS_get (key : String) : String :=
  (COLORS.lookup key).getD "KeyError"

/-- The lane's associated traffic-control ids that are active in the frame:
`lane_tl_ids.intersection(active_tl_ids)`, in association-list order. -/
def lane_active_tl_ids (mapAPI : MapAPI) (active_tl_ids : List String)
    (lane_id : String) : List String :=
  (mapAPI.get_lane_traffic_control_ids lane_id).filter
    (fun tl => active_tl_ids.contains tl)

/-- The lane color loop of `_get_frame_data`: start from "gray" and
overwrite with the `COLORS` entry of each matching active control point in
turn (the last one processed wins). -/
def lane_colour_for (mapAPI : MapAPI) (active_tl_ids : List String)
    (lane_id : String) : String :=
  (lane_active_tl_ids mapAPI active_tl_ids lane_id).foldl
    (fun _ tl => COLORS_get (TLFacesColors.name (mapAPI.get_color_for_face tl))) "gray"

/-- The four corners of the unit box scaled by 0.5:
`(np.asarray([[-1,-1],[-1,1],[1,1],[1,-1]]) * 0.5)`. -/
noncomputable def corners_base_coords : List (ℝ × ℝ) :=
  [(-(1 / 2), -(1 / 2)), (-(1 / 2), 1 / 2), (1 / 2, 1 / 2), (1 / 2, -(1 / 2))]

/-- The box geometry of `_get_frame_data` for one agent of the batch: scale
the base corners by the extent, rotate by the agent's yaw
(row vector times `[[c, s], [-s, c]]`), translate by the centroid. -/
noncomputable def agent_box_corners (a : Agent) : List (ℝ × ℝ) :=
  let s := Real.sin a.yaw
  let c := Real.cos a.yaw
  corners_base_coords.map (fun p =>
    let x := p.1 * a.extent.1
    let y := p.2 * a.extent.2
    (x * c - y * s + a.centroid.1, x * s + y * c + a.centroid.2))

/-- One `LaneVisualisation` of `_get_frame_data`: the left boundary followed
by the reversed right boundary, colored by the lane color loop. -/
def lane_visualisation (mapAPI : MapAPI) (active_tl_ids : List String)
    (lane_id : String) : LaneVisualisation :=
  let coords := mapAPI.get_lane_coords lane_id
  let pts := coords.xyz_left ++ coords.xyz_right.reverse
  { xs := pts.map (fun p => p.1)
    ys := pts.map (fun p => p.2)
    color := lane_colour_for mapAPI active_tl_ids lane_id }

/-- One `CWVisualisation` of `_get_frame_data`. -/
def crosswalk_visualisation (mapAPI : MapAPI) (cw_id : String) : CWVisualisation :=
  let pts := mapAPI.get_crosswalk_coords cw_id
  { xs := pts.map (fun p => p.1), ys := pts.map (fun p => p.2), color := "yellow" }

/-- One `AgentVisualisation` of `_get_frame_data`: box polygon, color from
the label table with the car color as fallback, argmax label and its
probability. -/
noncomputable def agent_visualisation (a : Agent) : AgentVisualisation :=
  let box := agent_box_corners a
  let label_index := argmax_index a.label_probabilities
  let agent_type := PERCEPTION_LABELS.getD label_index ""
  { xs := box.map (fun p => p.1)
    ys := box.map (fun p => p.2)
    color := (COLORS.lookup agent_type).getD "#1F77B4"
    track_id := a.track_id
    type := agent_type
    prob := a.label_probabilities.getD label_index 0 }

/-- The function `_get_frame_data`: the visualisation of one frame (trajectories left
empty here, exactly as in the source). -/
noncomputable def get_frame_data (mapAPI : MapAPI) (frame : Frame)
    (agents_frame : List Agent) (tls_frame : List TLFace) : FrameVisualisation :=
  let ego_xy := frame.ego_translation
  let active_tl_ids :=
    (filter_tl_faces_by_status tls_frame "ACTIVE").map (fun f => f.face_id)
  let lanes_vis :=
    (mapAPI.lanesNear ego_xy 50).map (lane_visualisation mapAPI active_tl_ids)
  let crosswalks_vis :=
    (mapAPI.crosswalksNear ego_xy 50).map (crosswalk_visualisation mapAPI)
  let ego_agent := get_ego_as_agent frame
  let ego_box := agent_box_corners ego_agent
  let ego_vis : EgoVisualisation :=
    { xs := ego_box.map (fun p => p.1)
      ys := ego_box.map (fun p => p.2)
      color := "red"
      center_x := ego_agent.centroid.1
      center_y := ego_agent.centroid.2 }
  { ego := ego_vis
    agents := agents_frame.map agent_visualisation
    lanes := lanes_vis
    crosswalks := crosswalks_vis
    trajectories := [] }

/-- The positions of a window that the availability mask marks available,
in frame order (`pos[avail > 0]`). -/
def kept_positions (pr : List (ℝ × ℝ) × List Bool) : List (ℝ × ℝ) :=
  ((pr.1.zip pr.2).filter (fun pa => pa.2)).map (fun pa => pa.1)

/-- The hardwired agent lookahead window of `_get_frame_trajectories`. -/
def agent_traj_length : ℕ := 20

/-- The hardwired ego lookahead window of `_get_frame_trajectories`. -/
def ego_traj_length : ℕ := 100

/-- The agent-loop body of `_get_frame_trajectories`: the trajectory of one
requested track id over the 20-step window anchored at `frame_index`. -/
def agent_trajectory_vis (frames : List Frame) (agents_frames : List (List Agent))
    (frame_index : ℕ) (track_id : ℕ) : TrajectoryVisualisation :=
  let pr := get_relative_poses agent_traj_length
    ((frames.drop frame_index).take agent_traj_length) (some track_id)
    ((agents_frames.drop frame_index).take agent_traj_length)
  let kept := kept_positions pr
  { xs := kept.map (fun p => p.1)
    ys := kept.map (fun p => p.2)
    color := "blue"
    legend_label := "agent_trajectory"
    track_id := (track_id : ℤ) }

/-- The ego part of `_get_frame_trajectories`: the ego trajectory over the
100-step window anchored at `frame_index`, with the reserved track id -1. -/
def ego_trajectory_vis (frames : List Frame) (agents_frames : List (List Agent))
    (frame_index : ℕ) : TrajectoryVisualisation :=
  let pr := get_relative_poses ego_traj_length
    ((frames.drop frame_index).take ego_traj_length) none
    ((agents_frames.drop frame_index).take ego_traj_length)
  let kept := kept_positions pr
  { xs := kept.map (fun p => p.1)
    ys := kept.map (fun p => p.2)
    color := "red"
    legend_label := "ego_trajectory"
    track_id := -1 }

/-- The function `_get_frame_trajectories`: one trajectory per requested track id, then
the ego trajectory. -/
def get_frame_trajectories (frames : List Frame) (agents_frames : List (List Agent))
    (track_ids : List ℕ) (frame_index : ℕ) : List TrajectoryVisualisation :=
  track_ids.map (agent_trajectory_vis frames agents_frames frame_index) ++
    [ego_trajectory_vis frames agents_frames frame_index]

/-- The loop body of `zarr_to_visualizer_scene` for one frame: filter the
frame's agents by the 0.1 label-probability threshold, build the frame's
visualisation, and attach the trajectories when requested. -/
noncomputable def scene_frame_vis (mapAPI : MapAPI) (frames : List Frame)
    (agents_frames : List (List Agent)) (tls_frames : List (List TLFace))
    (with_trajectories : Bool) (frame_idx : ℕ) (frame : Frame) : FrameVisualisation :=
  let tls_frame := tls_frames.getD frame_idx []
  let agents_frame := filter_agents_by_labels (agents_frames.getD frame_idx []) (1 / 10)
  let frame_vis := get_frame_data mapAPI frame agents_frame tls_frame
  if with_trajectories then
    { frame_vis with
      trajectories := get_frame_trajectories frames agents_frames
        (agents_frame.map (fun a => a.track_id)) frame_idx }
  else frame_vis

/-- The function `zarr_to_visualizer_scene`: reject any dataset that does not hold
exactly one scene, otherwise partition agents and traffic lights per frame
and build one `FrameVisualisation` per frame, in frame order. -/
noncomputable def zarr_to_visualizer_scene (scene_dataset : ChunkedDataset)
    (mapAPI : MapAPI) (with_trajectories : Bool) :
    Except String (List FrameVisualisation) :=
  if scene_dataset.scenes.length ≠ 1 then
    Except.error ("we can convert only a single scene, found " ++
      toString scene_dataset.scenes.length)
  else
    let frames := scene_dataset.frames
    let agents_frames := filter_agents_by_frames frames scene_dataset.agents
    let tls_frames := filter_tl_faces_by_frames frames scene_dataset.tl_faces
    Except.ok (frames.enum.map (fun p =>
      scene_frame_vis mapAPI frames agents_frames tls_frames with_trajectories p.1 p.2))

/-! ## Concrete fixtures -/

/-- A concrete map service: one lane with two traffic-control points, the
second of which shows red. -/
def wMap : MapAPI :=
  { lanesNear := fun _ _ => []
    crosswalksNear := fun _ _ => []
    get_lane_traffic_control_ids := fun _ => ["t1", "t2"]
    get_color_for_face := fun tl => if tl == "t2" then TLFacesColors.RED else TLFacesColors.GREEN
    get_lane_coords := fun _ => { xyz_left := [], xyz_right := [] }
    get_crosswalk_coords := fun _ => [] }

/-- A concrete frame at the origin. -/
noncomputable def wFrame : Frame :=
  { ego_translation := (0, 0)
    ego_yaw := 0
    agent_index_interval := (0, 0)
    traffic_light_faces_index_interval := (0, 0) }

/-- A concrete single-scene dataset with one frame. -/
noncomputable def wDataset1 : ChunkedDataset :=
  { scenes := [{ id := 0, frame_index_interval := (0, 1) }]
    frames := [wFrame]
    agents := []
    tl_faces := [] }

/-- A concrete dataset holding two scenes with distinct ids. -/
noncomputable def wDataset2 : ChunkedDataset :=
  { scenes := [{ id := 0, frame_index_interval := (0, 1) },
               { id := 1, frame_index_interval := (1, 2) }]
    frames := [wFrame]
    agents := []
    tl_faces := [] }

/-- A concrete agent with yaw 0, centroid (3, 4) and extent (2, 6). -/
noncomputable def wAgent : Agent :=
  { track_id := 7
    centroid := (3, 4)
    yaw := 0
    extent := (2, 6)
    label_probabilities := [1] }

/-- A concrete reward configuration: clipping at 15, yaw disabled. -/
def wReward : CLEReward :=
  { enable_clip := true, rew_clip_thresh := 15, use_yaw := false, yaw_weight := 20 }

/-! ## Theorems -/

/-- C10: every `CLEReward.get_reward` dictionary has exactly the keys
"total", "distance" and "yaw" with `total = distance + yaw`; with clipping
enabled the distance component is at least `-rew_clip_thresh`; with yaw
disabled the yaw component is 0. -/
theorem cle_reward_components (r : CLEReward) (dist_error yaw_error_metric : ℚ) :
    ∃ total distance yaw,
      r.get_reward dist_error yaw_error_metric =
        [("total", total), ("distance", distance), ("yaw", yaw)] ∧
      total = distance + yaw ∧
      (r.enable_clip = true → -r.rew_clip_thresh ≤ distance) ∧
      (r.use_yaw = false → yaw = 0) := by
  refine ⟨_, _, _, rfl, rfl, ?_, ?_⟩
  · intro hclip
    simp only [CLEReward.get_reward, hclip, if_true]
    exact le_max_left _ _
  · intro hyaw
    simp [CLEReward.get_reward, hyaw]

theorem cle_reward_components_witness :
    ∃ total distance yaw,
      wReward.get_reward 20 3 = [("total", total), ("distance", distance), ("yaw", yaw)] ∧
      total = distance + yaw ∧ -wReward.rew_clip_thresh ≤ distance ∧ yaw = 0 := by
  obtain ⟨t, d, y, h1, h2, h3, h4⟩ := cle_reward_components wReward 20 3
  exact ⟨t, d, y, h1, h2, h3 rfl, h4 rfl⟩

/-- C8: filtering agents by a label-probability threshold is idempotent. -/
theorem filter_agents_by_labels_idempotent (A : List Agent) (t : ℚ) :
    filter_agents_by_labels (filter_agents_by_labels A t) t =
      filter_agents_by_labels A t := by
  simp [filter_agents_by_labels, List.filter_filter]

/-- C5: a lane whose active associated traffic-control list is empty gets
the default color "gray"; otherwise the color of the last matching active
control point processed wins. -/
theorem lane_colour_resolution (mapAPI : MapAPI) (active_tl_ids : List String)
    (lane_id : String) :
    (lane_active_tl_ids mapAPI active_tl_ids lane_id = [] →
      lane_colour_for mapAPI active_tl_ids lane_id = "gray") ∧
    ∀ l x, lane_active_tl_ids mapAPI active_tl_ids lane_id = l ++ [x] →
      lane_colour_for mapAPI active_tl_ids lane_id =
        COLORS_get (TLFacesColors.name (mapAPI.get_color_for_face x)) := by
  constructor
  · intro h
    simp [lane_colour_for, h]
  · intro l x h
    simp [lane_colour_for, h, List.foldl_append]

theorem lane_colour_resolution_witness :
    lane_colour_for wMap ["t1", "t2"] "lane" = "#FF3300" := by
  have h := (lane_colour_resolution wMap ["t1", "t2"] "lane").2 ["t1"] "t2" (by rfl)
  rw [h]
  rfl

/-- C3: an agent with yaw 0 produces an axis-aligned box whose corners are
exactly the centroid plus (±L/2, ±W/2). -/
theorem agent_box_corners_yaw_zero (a : Agent) (h : a.yaw = 0) :
    agent_box_corners a =
      [(a.centroid.1 - a.extent.1 / 2, a.centroid.2 - a.extent.2 / 2),
       (a.centroid.1 - a.extent.1 / 2, a.centroid.2 + a.extent.2 / 2),
       (a.centroid.1 + a.extent.1 / 2, a.centroid.2 + a.extent.2 / 2),
       (a.centroid.1 + a.extent.1 / 2, a.centroid.2 - a.extent.2 / 2)] := by
  simp only [agent_box_corners, corners_base_coords, h, Real.sin_zero, Real.cos_zero,
    List.map_cons, List.map_nil, List.cons.injEq, Prod.mk.injEq, and_true]
  refine ⟨⟨by ring, by ring⟩, ⟨by ring, by ring⟩, ⟨by ring, by ring⟩, by ring, by ring⟩

theorem agent_box_corners_yaw_zero_witness :
    agent_box_corners wAgent = [((2 : ℝ), (1 : ℝ)), (2, 7), (4, 7), (4, 1)] := by
  have h := agent_box_corners_yaw_zero wAgent rfl
  rw [h]
  norm_num [wAgent]

/-- C4: for every frame (with any agent list, in particular the empty one),
the ego polygon of `_get_frame_data` has exactly 4 corners, and the mean of
the corners equals the synthesized ego-agent centroid exactly; the recorded
center is that same centroid. -/
theorem frame_data_ego_polygon (mapAPI : MapAPI) (frame : Frame)
    (agents_frame : List Agent) (tls_frame : List TLFace) :
    (get_frame_data mapAPI frame agents_frame tls_frame).ego.xs.length = 4 ∧
    (get_frame_data mapAPI frame agents_frame tls_frame).ego.ys.length = 4 ∧
    (get_frame_data mapAPI frame agents_frame tls_frame).ego.xs.sum / 4 =
      (get_ego_as_agent frame).centroid.1 ∧
    (get_frame_data mapAPI frame agents_frame tls_frame).ego.ys.sum / 4 =
      (get_ego_as_agent frame).centroid.2 ∧
    (get_frame_data mapAPI frame agents_frame tls_frame).ego.center_x =
      (get_ego_as_agent frame).centroid.1 ∧
    (get_frame_data mapAPI frame agents_frame tls_frame).ego.center_y =
      (get_ego_as_agent frame).centroid.2 := by
  refine ⟨rfl, rfl, ?_, ?_, rfl, rfl⟩
  · simp only [get_frame_data, agent_box_corners, corners_base_coords, List.map_cons,
      List.map_nil, List.sum_cons, List.sum_nil]
    ring
  · simp only [get_frame_data, agent_box_corners, corners_base_coords, List.map_cons,
      List.map_nil, List.sum_cons, List.sum_nil]
    ring

/-- Zipping the two projections of a list of pairs gives back the list. -/
theorem zip_proj_self {α β : Type _} (steps : List (α × β)) :
    (steps.map (fun s => s.1)).zip (steps.map (fun s => s.2)) = steps := by
  induction steps with
  | nil => rfl
  | cons s t ih => simp [ih]

/-- Applying `kept_positions` to a projected pair of lists gives the first projection of
the availability-filtered steps. -/
theorem kept_positions_eq (steps : List ((ℝ × ℝ) × Bool)) :
    kept_positions (steps.map (fun s => s.1), steps.map (fun s => s.2)) =
      (steps.filter (fun s => s.2)).map (fun s => s.1) := by
  simp [kept_positions, zip_proj_self]

/-- The availability-filtered length equals the count of `true` in the
mask. -/
theorem filter_snd_length (steps : List ((ℝ × ℝ) × Bool)) :
    (steps.filter (fun s => s.2)).length = (steps.map (fun s => s.2)).count true := by
  induction steps with
  | nil => rfl
  | cons s t ih => cases hb : s.2 <;> simp [List.filter_cons, hb, ih, List.count_cons]

/-- C6: each extracted trajectory keeps exactly as many positions as the
availability mask has `true` entries, never more than the window (20 for
agents, 100 for ego), and in frame order (the kept positions form a sublist
of the window's position sequence). -/
theorem trajectory_mask_consistency (frames : List Frame)
    (agents_frames : List (List Agent)) (frame_index : ℕ) (tid : ℕ) :
    ((agent_trajectory_vis frames agents_frames frame_index tid).xs.length =
        (get_relative_poses agent_traj_length
          ((frames.drop frame_index).take agent_traj_length) (some tid)
          ((agents_frames.drop frame_index).take agent_traj_length)).2.count true ∧
      (agent_trajectory_vis frames agents_frames frame_index tid).ys.length =
        (agent_trajectory_vis frames agents_frames frame_index tid).xs.length ∧
      (agent_trajectory_vis frames agents_frames frame_index tid).xs.length ≤ 20 ∧
      List.Sublist
        (kept_positions (get_relative_poses agent_traj_length
          ((frames.drop frame_index).take agent_traj_length) (some tid)
          ((agents_frames.drop frame_index).take agent_traj_length)))
        (get_relative_poses agent_traj_length
          ((frames.drop frame_index).take agent_traj_length) (some tid)
          ((agents_frames.drop frame_index).take agent_traj_length)).1) ∧
    ((ego_trajectory_vis frames agents_frames frame_index).xs.length =
        (get_relative_poses ego_traj_length
          ((frames.drop frame_index).take ego_traj_length) none
          ((agents_frames.drop frame_index).take ego_traj_length)).2.count true ∧
      (ego_trajectory_vis frames agents_frames frame_index).ys.length =
        (ego_trajectory_vis frames agents_frames frame_index).xs.length ∧
      (ego_trajectory_vis frames agents_frames frame_index).xs.length ≤ 100 ∧
      List.Sublist
        (kept_positions (get_relative_poses ego_traj_length
          ((frames.drop frame_index).take ego_traj_length) none
          ((agents_frames.drop frame_index).take ego_traj_length)))
        (get_relative_poses ego_traj_length
          ((frames.drop frame_index).take ego_traj_length) none
          ((agents_frames.drop frame_index).take ego_traj_length)).1) := by
  constructor
  · refine ⟨?_, ?_, ?_, ?_⟩
    · simp only [agent_trajectory_vis, get_relative_poses, List.length_map]
      rw [kept_positions_eq, List.length_map, filter_snd_length]
    · simp [agent_trajectory_vis]
    · simp only [agent_trajectory_vis, get_relative_poses, List.length_map]
      rw [kept_positions_eq, List.length_map]
      calc ((List.range agent_traj_length).map
              (relative_pose_step ((frames.drop frame_index).take agent_traj_length)
                (some tid) ((agents_frames.drop frame_index).take agent_traj_length))
            |>.filter (fun s => s.2)).length
          ≤ ((List.range agent_traj_length).map
              (relative_pose_step ((frames.drop frame_index).take agent_traj_length)
                (some tid) ((agents_frames.drop frame_index).take agent_traj_length))).length :=
            (List.filter_sublist _).length_le
        _ = 20 := by simp [agent_traj_length]
    · simp only [get_relative_poses]
      rw [kept_positions_eq]
      exact ((List.filter_sublist _).map _)
  · refine ⟨?_, ?_, ?_, ?_⟩
    · simp only [ego_trajectory_vis, get_relative_poses, List.length_map]
      rw [kept_positions_eq, List.length_map, filter_snd_length]
    · simp [ego_trajectory_vis]
    · simp only [ego_trajectory_vis, get_relative_poses, List.length_map]
      rw [kept_positions_eq, List.length_map]
      calc ((List.range ego_traj_length).map
              (relative_pose_step ((frames.drop frame_index).take ego_traj_length)
                none ((agents_frames.drop frame_index).take ego_traj_length))
            |>.filter (fun s => s.2)).length
          ≤ ((List.range ego_traj_length).map
              (relative_pose_step ((frames.drop frame_index).take ego_traj_length)
                none ((agents_frames.drop frame_index).take ego_traj_length))).length :=
            (List.filter_sublist _).length_le
        _ = 100 := by simp [ego_traj_length]
    · simp only [get_relative_poses]
      rw [kept_positions_eq]
      exact ((List.filter_sublist _).map _)

/-- A window step for a track id that no frame of the window holds is
unavailable. -/
theorem relative_pose_step_absent (frames' : List Frame)
    (agents' : List (List Agent)) (tid : ℕ)
    (habs : ∀ af ∈ agents', ∀ a ∈ af, a.track_id ≠ tid) (i : ℕ) :
    (relative_pose_step frames' (some tid) agents' i).2 = false := by
  unfold relative_pose_step
  cases hf : frames'[i]? with
  | none => rfl
  | some f =>
    have hnone : (agents'[i]?.getD []).find? (fun a => a.track_id == tid) = none := by
      rw [List.find?_eq_none]
      intro a ha
      cases hg : agents'[i]? with
      | none =>
        rw [hg] at ha
        simp at ha
      | some af =>
        rw [hg] at ha
        have := habs af (List.getElem?_mem hg) a ha
        simpa using this
    simp [hnone]

/-- C7: `_get_frame_trajectories` returns exactly `len(track_ids) + 1`
trajectories; a requested track id that never appears in the 20-frame
window still contributes a trajectory, with empty position lists. -/
theorem trajectories_count_and_absent (frames : List Frame)
    (agents_frames : List (List Agent)) (track_ids : List ℕ) (frame_index : ℕ)
    (tid : ℕ) (hmem : tid ∈ track_ids)
    (habs : ∀ af ∈ (agents_frames.drop frame_index).take agent_traj_length,
      ∀ a ∈ af, a.track_id ≠ tid) :
    (get_frame_trajectories frames agents_frames track_ids frame_index).length =
      track_ids.length + 1 ∧
    ∃ t ∈ get_frame_trajectories frames agents_frames track_ids frame_index,
      t.track_id = (tid : ℤ) ∧ t.xs = [] ∧ t.ys = [] := by
  constructor
  · simp [get_frame_trajectories]
  · refine ⟨agent_trajectory_vis frames agents_frames frame_index tid,
      List.mem_append_left _ (List.mem_map_of_mem _ hmem), rfl, ?_⟩
    have hkept : kept_positions (get_relative_poses agent_traj_length
        ((frames.drop frame_index).take agent_traj_length) (some tid)
        ((agents_frames.drop frame_index).take agent_traj_length)) = [] := by
      simp only [get_relative_poses]
      rw [kept_positions_eq]
      have hfil : ((List.range agent_traj_length).map
          (relative_pose_step ((frames.drop frame_index).take agent_traj_length)
            (some tid) ((agents_frames.drop frame_index).take agent_traj_length))
          |>.filter (fun s => s.2)) = [] := by
        rw [List.filter_eq_nil_iff]
        intro s hs
        rw [List.mem_map] at hs
        obtain ⟨i, _, rfl⟩ := hs
        simp [relative_pose_step_absent _ _ _ habs i]
      rw [hfil]
      rfl
    constructor
    · show (kept_positions _).map _ = []
      rw [hkept]
      rfl
    · show (kept_positions _).map _ = []
      rw [hkept]
      rfl

theorem trajectories_count_and_absent_witness :
    (get_frame_trajectories [] [] [5] 0).length = [5].length + 1 ∧
    ∃ t ∈ get_frame_trajectories [] [] [5] 0,
      t.track_id = ((5 : ℕ) : ℤ) ∧ t.xs = [] ∧ t.ys = [] :=
  trajectories_count_and_absent [] [] [5] 0 5 (by simp) (by simp)

/-- A list holding two elements with distinct ids does not have length 1. -/
theorem scenes_length_ne_one (l : List Scene) (s1 s2 : Scene) (h1 : s1 ∈ l)
    (h2 : s2 ∈ l) (hne : s1.id ≠ s2.id) : l.length ≠ 1 := by
  intro hlen
  obtain ⟨a, rfl⟩ := List.length_eq_one.mp hlen
  simp only [List.mem_singleton] at h1 h2
  exact hne (by rw [h1, h2])

/-- C1: a dataset holding two scenes with distinct ids makes
`zarr_to_visualizer_scene` fail with the invalid-input error, producing no
frame visualisations. -/
theorem zarr_multi_scene_fails (ds : ChunkedDataset) (mapAPI : MapAPI) (wt : Bool)
    (s1 s2 : Scene) (h1 : s1 ∈ ds.scenes) (h2 : s2 ∈ ds.scenes)
    (hne : s1.id ≠ s2.id) :
    (∃ msg, zarr_to_visualizer_scene ds mapAPI wt = Except.error msg) ∧
      ∀ out, zarr_to_visualizer_scene ds mapAPI wt ≠ Except.ok out := by
  have hlen := scenes_length_ne_one ds.scenes s1 s2 h1 h2 hne
  unfold zarr_to_visualizer_scene
  rw [if_pos hlen]
  refine ⟨⟨_, rfl⟩, ?_⟩
  intro out hok
  exact Except.noConfusion hok

theorem zarr_multi_scene_fails_witness :
    (∃ msg, zarr_to_visualizer_scene wDataset2 wMap true = Except.error msg) ∧
      ∀ out, zarr_to_visualizer_scene wDataset2 wMap true ≠ Except.ok out :=
  zarr_multi_scene_fails wDataset2 wMap true
    { id := 0, frame_index_interval := (0, 1) }
    { id := 1, frame_index_interval := (1, 2) }
    (by simp [wDataset2]) (by simp [wDataset2]) (by simp)

/-- C2: on a single-scene dataset, `zarr_to_visualizer_scene` returns one
`FrameVisualisation` per frame, in frame order: the i-th output is built by
the per-frame loop body from the i-th frame. -/
theorem zarr_single_scene_produces_frames (ds : ChunkedDataset) (mapAPI : MapAPI)
    (wt : Bool) (h : ds.scenes.length = 1) :
    ∃ vis, zarr_to_visualizer_scene ds mapAPI wt = Except.ok vis ∧
      vis.length = ds.frames.length ∧
      ∀ i f, ds.frames[i]? = some f →
        vis[i]? = some (scene_frame_vis mapAPI ds.frames
          (filter_agents_by_frames ds.frames ds.agents)
          (filter_tl_faces_by_frames ds.frames ds.tl_faces) wt i f) := by
  have hok : zarr_to_visualizer_scene ds mapAPI wt =
      Except.ok (ds.frames.enum.map (fun p =>
        scene_frame_vis mapAPI ds.frames (filter_agents_by_frames ds.frames ds.agents)
          (filter_tl_faces_by_frames ds.frames ds.tl_faces) wt p.1 p.2)) := by
    unfold zarr_to_visualizer_scene
    rw [if_neg (by simp [h])]
  refine ⟨_, hok, ?_, ?_⟩
  · simp
  · intro i f hf
    rw [List.getElem?_map, List.getElem?_enum, hf]
    rfl

theorem zarr_single_scene_produces_frames_witness :
    ∃ vis, zarr_to_visualizer_scene wDataset1 wMap true = Except.ok vis ∧
      vis.length = wDataset1.frames.length ∧
      ∀ i f, wDataset1.frames[i]? = some f →
        vis[i]? = some (scene_frame_vis wMap wDataset1.frames
          (filter_agents_by_frames wDataset1.frames wDataset1.agents)
          (filter_tl_faces_by_frames wDataset1.frames wDataset1.tl_faces) true i f) :=
  zarr_single_scene_produces_frames wDataset1 wMap true rfl

/-- C9: with trajectories disabled every produced frame has an empty
trajectory list, while ego, agents, lanes and crosswalks are identical to
the with-trajectories run. -/
theorem zarr_without_trajectories (ds : ChunkedDataset) (mapAPI : MapAPI)
    (h : ds.scenes.length = 1) :
    ∃ visF visT : List FrameVisualisation,
      zarr_to_visualizer_scene ds mapAPI false = Except.ok visF ∧
      zarr_to_visualizer_scene ds mapAPI true = Except.ok visT ∧
      visF.length = visT.length ∧
      ∀ (i : ℕ) (fF fT : FrameVisualisation), visF[i]? = some fF → visT[i]? = some fT →
        fF.trajectories = [] ∧ fF.ego = fT.ego ∧ fF.agents = fT.agents ∧
        fF.lanes = fT.lanes ∧ fF.crosswalks = fT.crosswalks := by
  have hokF : zarr_to_visualizer_scene ds mapAPI false =
      Except.ok (ds.frames.enum.map (fun p =>
        scene_frame_vis mapAPI ds.frames (filter_agents_by_frames ds.frames ds.agents)
          (filter_tl_faces_by_frames ds.frames ds.tl_faces) false p.1 p.2)) := by
    unfold zarr_to_visualizer_scene
    rw [if_neg (by simp [h])]
  have hokT : zarr_to_visualizer_scene ds mapAPI true =
      Except.ok (ds.frames.enum.map (fun p =>
        scene_frame_vis mapAPI ds.frames (filter_agents_by_frames ds.frames ds.agents)
          (filter_tl_faces_by_frames ds.frames ds.tl_faces) true p.1 p.2)) := by
    unfold zarr_to_visualizer_scene
    rw [if_neg (by simp [h])]
  refine ⟨_, _, hokF, hokT, by simp, ?_⟩
  intro i fF fT hF hT
  rw [List.getElem?_map, List.getElem?_enum] at hF hT
  cases hf : ds.frames[i]? with
  | none =>
    rw [hf] at hF
    simp at hF
  | some fr =>
    rw [hf] at hF hT
    simp only [Option.map_some', Option.some.injEq] at hF hT
    subst hF
    subst hT
    exact ⟨rfl, rfl, rfl, rfl, rfl⟩

theorem zarr_without_trajectories_witness :
    ∃ visF visT : List FrameVisualisation,
      zarr_to_visualizer_scene wDataset1 wMap false = Except.ok visF ∧
      zarr_to_visualizer_scene wDataset1 wMap true = Except.ok visT ∧
      visF.length = visT.length ∧
      ∀ (i : ℕ) (fF fT : FrameVisualisation), visF[i]? = some fF → visT[i]? = some fT →
        fF.trajectories = [] ∧ fF.ego = fT.ego ∧ fF.agents = fT.agents ∧
        fF.lanes = fT.lanes ∧ fF.crosswalks = fT.crosswalks :=
  zarr_without_trajectories wDataset1 wMap rfl

end L5Kit
